import Mathlib

/-!
Shallow embedding of the `atlassian-cloud-backups` repository
(three AWS Lambda entry points:
`src/confluence/backups-download/lambda_function.py`,
`src/jira-backups-download/lambda_function.py`,
`src/confluence/backups-trigger/lambda_function.py`).

Each handler is modelled as a pure function from explicit inputs (the
secret-store lookup result, the environment configuration, the HTTP
responses the upstream site would return, the S3 outcome and the UTC
clock reading) to a pair of
  - the trace of outbound effects the handler performs, in order, and
  - the `Except` result (the returned value, or the exception raised).
-/

set_option linter.unusedVariables false

namespace AtlassianCloudBackups

/-- A Python value as it may appear in a Lambda invocation event
(restricted to the JSON scalar shapes relevant here). -/
inductive PyValue where
  | pyNone
  | pyBool (b : Bool)
  | pyInt (n : Int)
  | pyStr (s : String)
deriving DecidableEq, Repr

/-- Python truthiness of a `PyValue`, as used by `if ... and event[k]:`. -/
def PyValue.truthy : PyValue → Bool
  | .pyNone => false
  | .pyBool b => b
  | .pyInt n => n != 0
  | .pyStr s => s != ""

/-- The credential pair read from the secret
(`email = secret["email"]`, `api_token = secret["api_token"]`). -/
structure Credentials where
  email : String
  api_token : String
deriving DecidableEq, Repr

/-- Outcome of the Secrets Manager `get_secret_value` call: either the call
raises (secret unavailable) or it yields a parsed JSON object, modelled as an
association list of string fields. -/
inductive SecretResult where
  | unavailable
  | value (fields : List (String × String))
deriving DecidableEq, Repr

/-- An HTTP response as the handlers observe it: its status code, its JSON
body as string fields (the only fields the code reads are strings), its raw
text body, and its raw byte stream. -/
structure HttpResponse where
  statusCode : Nat
  json : List (String × String)
  text : String
  raw : List Nat
deriving DecidableEq, Repr

/-- The exceptions a handler run can raise. `backupIncomplete` is the
`RuntimeError("The latest backup is not finished or was not successful.")`
raised on a non-success status token; `keyError` is a Python `KeyError`
from indexing a dict; `httpError` is `raise_for_status`;
`uploadFailed` is a failing `s3.upload_fileobj`. -/
inductive Err where
  | secretUnavailable
  | keyError (key : String)
  | httpError (url : String) (code : Nat)
  | backupIncomplete
  | uploadFailed
deriving DecidableEq, Repr

/-- One outbound effect of a handler run. -/
inductive Action where
  | getSecret
  | httpGet (url : String)
  | httpPost (url : String) (body : String)
  | s3Upload (bucket : String) (key : String)
deriving DecidableEq, Repr

/-- `requests.Response.raise_for_status()`: raises exactly when the status
code is a 4xx or 5xx. -/
def raiseForStatus (url : String) (code : Nat) : Except Err Unit :=
  if 400 ≤ code ∧ code < 600 then .error (.httpError url code) else .ok ()

/-- Python dict indexing `d[key]`: the value, or a `KeyError`. -/
def dictGet (d : List (String × String)) (key : String) : Except Err String :=
  match d.lookup key with
  | some v => .ok v
  | none => .error (.keyError key)

/-- A UTC clock reading as `datetime` exposes it, to second precision. -/
structure Timestamp where
  year : Nat
  month : Nat
  day : Nat
  hour : Nat
  minute : Nat
  second : Nat
deriving DecidableEq, Repr

/-- The field ranges Python `datetime` guarantees for every real clock
reading (`datetime.MINYEAR = 1`, `datetime.MAXYEAR = 9999`). -/
def Timestamp.Valid (t : Timestamp) : Prop :=
  1 ≤ t.year ∧ t.year ≤ 9999 ∧ 1 ≤ t.month ∧ t.month ≤ 12 ∧
  1 ≤ t.day ∧ t.day ≤ 31 ∧ t.hour ≤ 23 ∧ t.minute ≤ 59 ∧ t.second ≤ 59

instance (t : Timestamp) : Decidable t.Valid := by
  unfold Timestamp.Valid
  infer_instance

/-- Zero-padded two-digit decimal, as `strftime` renders `%m %d %H %M %S`
for the in-range values `datetime` guarantees (0 ≤ n ≤ 99). -/
def pad2 (n : Nat) : String :=
  String.mk [Nat.digitChar (n / 10), Nat.digitChar (n % 10)]

/-- Zero-padded four-digit decimal, as `strftime` renders `%Y` for the
in-range years `datetime` guarantees (year ≤ 9999). -/
def pad4 (n : Nat) : String :=
  String.mk [Nat.digitChar (n / 1000), Nat.digitChar (n / 100 % 10),
             Nat.digitChar (n / 10 % 10), Nat.digitChar (n % 10)]

/-- `strftime('%Y-%m-%dT%H-%M-%SZ')` on a UTC clock reading. -/
def strftimeTs (t : Timestamp) : String :=
  pad4 t.year ++ "-" ++ pad2 t.month ++ "-" ++ pad2 t.day ++ "T" ++
    pad2 t.hour ++ "-" ++ pad2 t.minute ++ "-" ++ pad2 t.second ++ "Z"

/-- The dict `{"status": "success", "filename": <filename>}` that the
download handlers return. -/
structure HandlerResult where
  status : String
  filename : String
deriving DecidableEq, Repr

namespace ConfluenceDownload

/-- Everything `src/confluence/backups-download/lambda_function.py` reads
from its surroundings during one invocation: the secret store, the
environment variables, the responses the site would give to the two GET
requests, whether the S3 upload completes, and the clock. -/
structure Inputs where
  store : SecretResult
  siteName : String
  bucketName : String
  statusResp : HttpResponse
  downloadResp : HttpResponse
  uploadOk : Bool
  now : Timestamp
deriving DecidableEq, Repr

/-- `get_secret()`: one Secrets Manager call returning the parsed secret. -/
def get_secret (store : SecretResult) :
    List Action × Except Err (List (String × String)) :=
  ([Action.getSecret],
    match store with
    | .unavailable => .error .secretUnavailable
    | .value fields => .ok fields)

/-- `get_credentials()`: fetch the secret, read `email` and `api_token`. -/
def get_credentials (store : SecretResult) :
    List Action × Except Err Credentials :=
  let p := get_secret store
  (p.1, do
    let secret ← p.2
    let email ← dictGet secret "email"
    let api_token ← dictGet secret "api_token"
    return { email := email, api_token := api_token })

/-- The fixed Confluence progress endpoint URL. -/
def progressUrl (site_name : String) : String :=
  "https://" ++ site_name ++ "/wiki/rest/obm/1.0/getprogress.json"

/-- `get_download_url(credentials, site_name)`: GET the progress endpoint,
read `currentStatus`, raise unless it equals `"COMPLETE"`, then return the
`fileName` field. -/
def get_download_url (credentials : Credentials) (site_name : String)
    (status_resp : HttpResponse) : List Action × Except Err String :=
  ([Action.httpGet (progressUrl site_name)], do
    raiseForStatus (progressUrl site_name) status_resp.statusCode
    let status ← dictGet status_resp.json "currentStatus"
    if status ≠ "COMPLETE" then throw Err.backupIncomplete
    else dictGet status_resp.json "fileName")

/-- `download_file(credentials, site_name, download_url)`: streamed GET of
`https://{site_name}/wiki/download/{download_url}`, returning the raw body. -/
def download_file (credentials : Credentials) (site_name : String)
    (download_url : String) (resp : HttpResponse) :
    List Action × Except Err (List Nat) :=
  let url := "https://" ++ site_name ++ "/wiki/download/" ++ download_url
  ([Action.httpGet url], do
    raiseForStatus url resp.statusCode
    return resp.raw)

/-- `upload_to_s3(backup_file)`: compute the timestamped object name and
upload the stream to the bucket (bucket name and clock made explicit). -/
def upload_to_s3 (now : Timestamp) (bucket : String) (uploadOk : Bool)
    (backup_file : List Nat) : List Action × Except Err String :=
  let filename := "confluence-backup-" ++ strftimeTs now ++ ".zip"
  ([Action.s3Upload bucket filename],
    if uploadOk then .ok filename else .error .uploadFailed)

/-- `lambda_handler(event, context)` of the Confluence download function. -/
def lambda_handler (event : List (String × PyValue)) (inp : Inputs) :
    List Action × Except Err HandlerResult :=
  let pc := get_credentials inp.store
  match pc.2 with
  | .error e => (pc.1, .error e)
  | .ok credentials =>
    let site_name := inp.siteName
    let pu := get_download_url credentials site_name inp.statusResp
    match pu.2 with
    | .error e => (pc.1 ++ pu.1, .error e)
    | .ok download_url =>
      let pf := download_file credentials site_name download_url inp.downloadResp
      match pf.2 with
      | .error e => (pc.1 ++ pu.1 ++ pf.1, .error e)
      | .ok backup_file =>
        let ps := upload_to_s3 inp.now inp.bucketName inp.uploadOk backup_file
        match ps.2 with
        | .error e => (pc.1 ++ pu.1 ++ pf.1 ++ ps.1, .error e)
        | .ok filename =>
          (pc.1 ++ pu.1 ++ pf.1 ++ ps.1, .ok ⟨"success", filename⟩)

end ConfluenceDownload

namespace JiraDownload

/-- Everything `src/jira-backups-download/lambda_function.py` reads from its
surroundings during one invocation. -/
structure Inputs where
  store : SecretResult
  siteName : String
  bucketName : String
  lastTaskIdResp : HttpResponse
  progressResp : HttpResponse
  downloadResp : HttpResponse
  uploadOk : Bool
  now : Timestamp
deriving DecidableEq, Repr

/-- `get_secret()`: one Secrets Manager call returning the parsed secret. -/
def get_secret (store : SecretResult) :
    List Action × Except Err (List (String × String)) :=
  ([Action.getSecret],
    match store with
    | .unavailable => .error .secretUnavailable
    | .value fields => .ok fields)

/-- `get_credentials()`: fetch the secret, read `email` and `api_token`. -/
def get_credentials (store : SecretResult) :
    List Action × Except Err Credentials :=
  let p := get_secret store
  (p.1, do
    let secret ← p.2
    let email ← dictGet secret "email"
    let api_token ← dictGet secret "api_token"
    return { email := email, api_token := api_token })

/-- The fixed Jira last-task-id endpoint URL. -/
def lastTaskIdUrl (site_name : String) : String :=
  "https://" ++ site_name ++ "/rest/backup/1/export/lastTaskId"

/-- `get_task_id(credentials, site_name)`: GET the last-task-id endpoint and
return the raw response text. -/
def get_task_id (credentials : Credentials) (site_name : String)
    (status_resp : HttpResponse) : List Action × Except Err String :=
  ([Action.httpGet (lastTaskIdUrl site_name)], do
    raiseForStatus (lastTaskIdUrl site_name) status_resp.statusCode
    return status_resp.text)

/-- The Jira progress endpoint URL, parameterized by the raw task id. -/
def progressUrl (site_name task_id : String) : String :=
  "https://" ++ site_name ++ "/rest/backup/1/export/getProgress?taskId=" ++
    task_id

/-- `get_download_url(credentials, site_name, task_id)`: GET the progress
endpoint for the task, read `status`, raise unless it equals `"Success"`,
then return the `result` field. -/
def get_download_url (credentials : Credentials) (site_name task_id : String)
    (status_resp : HttpResponse) : List Action × Except Err String :=
  ([Action.httpGet (progressUrl site_name task_id)], do
    raiseForStatus (progressUrl site_name task_id) status_resp.statusCode
    let status ← dictGet status_resp.json "status"
    if status ≠ "Success" then throw Err.backupIncomplete
    else dictGet status_resp.json "result")

/-- `download_file(credentials, site_name, download_url)`: streamed GET of
`https://{site_name}/plugins/servlet/{download_url}`. -/
def download_file (credentials : Credentials) (site_name : String)
    (download_url : String) (resp : HttpResponse) :
    List Action × Except Err (List Nat) :=
  let url := "https://" ++ site_name ++ "/plugins/servlet/" ++ download_url
  ([Action.httpGet url], do
    raiseForStatus url resp.statusCode
    return resp.raw)

/-- `upload_to_s3(backup_file)`: compute the timestamped object name and
upload the stream to the bucket (bucket name and clock made explicit). -/
def upload_to_s3 (now : Timestamp) (bucket : String) (uploadOk : Bool)
    (backup_file : List Nat) : List Action × Except Err String :=
  let filename := "jira-backup-" ++ strftimeTs now ++ ".zip"
  ([Action.s3Upload bucket filename],
    if uploadOk then .ok filename else .error .uploadFailed)

/-- `lambda_handler(event, context)` of the Jira download function. -/
def lambda_handler (event : List (String × PyValue)) (inp : Inputs) :
    List Action × Except Err HandlerResult :=
  let pc := get_credentials inp.store
  match pc.2 with
  | .error e => (pc.1, .error e)
  | .ok credentials =>
    let site_name := inp.siteName
    let pt := get_task_id credentials site_name inp.lastTaskIdResp
    match pt.2 with
    | .error e => (pc.1 ++ pt.1, .error e)
    | .ok task_id =>
      let pu := get_download_url credentials site_name task_id inp.progressResp
      match pu.2 with
      | .error e => (pc.1 ++ pt.1 ++ pu.1, .error e)
      | .ok download_url =>
        let pf := download_file credentials site_name download_url inp.downloadResp
        match pf.2 with
        | .error e => (pc.1 ++ pt.1 ++ pu.1 ++ pf.1, .error e)
        | .ok backup_file =>
          let ps := upload_to_s3 inp.now inp.bucketName inp.uploadOk backup_file
          match ps.2 with
          | .error e => (pc.1 ++ pt.1 ++ pu.1 ++ pf.1 ++ ps.1, .error e)
          | .ok filename =>
            (pc.1 ++ pt.1 ++ pu.1 ++ pf.1 ++ ps.1, .ok ⟨"success", filename⟩)

end JiraDownload

namespace ConfluenceTrigger

/-- Everything `src/confluence/backups-trigger/lambda_function.py` reads from
its surroundings during one invocation. -/
structure Inputs where
  store : SecretResult
  siteName : String
  triggerResp : HttpResponse
deriving DecidableEq, Repr

/-- `get_secret()`: one Secrets Manager call returning the parsed secret. -/
def get_secret (store : SecretResult) :
    List Action × Except Err (List (String × String)) :=
  ([Action.getSecret],
    match store with
    | .unavailable => .error .secretUnavailable
    | .value fields => .ok fields)

/-- `get_credentials()`: fetch the secret, read `email` and `api_token`. -/
def get_credentials (store : SecretResult) :
    List Action × Except Err Credentials :=
  let p := get_secret store
  (p.1, do
    let secret ← p.2
    let email ← dictGet secret "email"
    let api_token ← dictGet secret "api_token"
    return { email := email, api_token := api_token })

/-- `are_attachments_included(event)`:
`"true"` when `"includeAttachments" in event and event["includeAttachments"]`
holds (key present and value truthy), else `"false"`. -/
def are_attachments_included (event : List (String × PyValue)) : String :=
  match event.lookup "includeAttachments" with
  | some v => if v.truthy then "true" else "false"
  | none => "false"

/-- The fixed run-backup endpoint URL. -/
def runBackupUrl (site_name : String) : String :=
  "https://" ++ site_name ++ "/wiki/rest/obm/1.0/runbackup"

/-- The request body
`f'\x7b\x7b"cbAttachments":"\x7binclude_attachments\x7d", "exportToCloud":"true"\x7d\x7d'`. -/
def triggerBody (include_attachments : String) : String :=
  "\x7b\"cbAttachments\":\"" ++ include_attachments ++
    "\", \"exportToCloud\":\"true\"\x7d"

/-- `trigger_backup(credentials, include_attachments)`: POST the body to the
run-backup endpoint, then `raise_for_status`. -/
def trigger_backup (credentials : Credentials) (include_attachments : String)
    (site_name : String) (resp : HttpResponse) :
    List Action × Except Err Unit :=
  ([Action.httpPost (runBackupUrl site_name) (triggerBody include_attachments)],
    raiseForStatus (runBackupUrl site_name) resp.statusCode)

/-- `lambda_handler(event, context)` of the Confluence trigger function.
It returns the dict `{"status": "success"}` on success. -/
def lambda_handler (event : List (String × PyValue)) (inp : Inputs) :
    List Action × Except Err String :=
  let pc := get_credentials inp.store
  match pc.2 with
  | .error e => (pc.1, .error e)
  | .ok credentials =>
    let include_attachments := are_attachments_included event
    let pt := trigger_backup credentials include_attachments inp.siteName
      inp.triggerResp
    match pt.2 with
    | .error e => (pc.1 ++ pt.1, .error e)
    | .ok _ => (pc.1 ++ pt.1, .ok "success")

end ConfluenceTrigger

/-! Helper lemmas shared by the claim proofs. -/

/-- Digit read back from a character (inverse of `Nat.digitChar` below 10). -/
def dAt (l : List Char) (i : Nat) : Nat := (l.getD i '0').toNat - 48

/-- Parse a `strftime('%Y-%m-%dT%H-%M-%SZ')` string back into its fields. -/
def decodeTs (s : String) : Timestamp :=
  { year := dAt s.data 0 * 1000 + dAt s.data 1 * 100 + dAt s.data 2 * 10 +
      dAt s.data 3
    month := dAt s.data 5 * 10 + dAt s.data 6
    day := dAt s.data 8 * 10 + dAt s.data 9
    hour := dAt s.data 11 * 10 + dAt s.data 12
    minute := dAt s.data 14 * 10 + dAt s.data 15
    second := dAt s.data 17 * 10 + dAt s.data 18 }

theorem digitChar_val {d : Nat} (h : d < 10) :
    (Nat.digitChar d).toNat - 48 = d := by
  interval_cases d <;> rfl

theorem strftimeTs_data (t : Timestamp) :
    (strftimeTs t).data =
      [Nat.digitChar (t.year / 1000), Nat.digitChar (t.year / 100 % 10),
       Nat.digitChar (t.year / 10 % 10), Nat.digitChar (t.year % 10), '-',
       Nat.digitChar (t.month / 10), Nat.digitChar (t.month % 10), '-',
       Nat.digitChar (t.day / 10), Nat.digitChar (t.day % 10), 'T',
       Nat.digitChar (t.hour / 10), Nat.digitChar (t.hour % 10), '-',
       Nat.digitChar (t.minute / 10), Nat.digitChar (t.minute % 10), '-',
       Nat.digitChar (t.second / 10), Nat.digitChar (t.second % 10), 'Z'] := by
  simp [strftimeTs, pad4, pad2, String.data_append]

theorem decodeTs_strftimeTs (t : Timestamp) (h : t.Valid) :
    decodeTs (strftimeTs t) = t := by
  obtain ⟨y, mo, d, hh, mi, s⟩ := t
  obtain ⟨h1, h2, h3, h4, h5, h6, h7, h8, h9⟩ := h
  dsimp only at h1 h2 h3 h4 h5 h6 h7 h8 h9
  simp only [decodeTs, strftimeTs_data, dAt, List.getD_cons_zero,
    List.getD_cons_succ]
  rw [digitChar_val (show y / 1000 < 10 by omega),
    digitChar_val (Nat.mod_lt _ (by omega)),
    digitChar_val (Nat.mod_lt _ (by omega)),
    digitChar_val (Nat.mod_lt _ (by omega)),
    digitChar_val (show mo / 10 < 10 by omega),
    digitChar_val (Nat.mod_lt _ (by omega)),
    digitChar_val (show d / 10 < 10 by omega),
    digitChar_val (Nat.mod_lt _ (by omega)),
    digitChar_val (show hh / 10 < 10 by omega),
    digitChar_val (Nat.mod_lt _ (by omega)),
    digitChar_val (show mi / 10 < 10 by omega),
    digitChar_val (Nat.mod_lt _ (by omega)),
    digitChar_val (show s / 10 < 10 by omega),
    digitChar_val (Nat.mod_lt _ (by omega))]
  simp only [Timestamp.mk.injEq]
  refine ⟨by omega, by omega, by omega, by omega, by omega, by omega⟩

theorem strftimeTs_inj {t1 t2 : Timestamp} (h1 : t1.Valid) (h2 : t2.Valid)
    (h : strftimeTs t1 = strftimeTs t2) : t1 = t2 := by
  rw [← decodeTs_strftimeTs t1 h1, ← decodeTs_strftimeTs t2 h2, h]

theorem string_sandwich_inj (pre suf : String) {a b : String}
    (h : pre ++ a ++ suf = pre ++ b ++ suf) : a = b := by
  apply String.ext
  have hd := congrArg String.data h
  simp only [String.data_append] at hd
  rw [List.append_assoc, List.append_assoc] at hd
  have hd2 := List.append_cancel_left hd
  exact List.append_cancel_right hd2

theorem exbind_ok {α β : Type} (a : α) (f : α → Except Err β) :
    (Except.ok a >>= f) = f a := rfl

theorem exbind_err {α β : Type} (e : Err) (f : α → Except Err β) :
    ((Except.error e : Except Err α) >>= f) = Except.error e := rfl

theorem expure {α : Type} (a : α) : (pure a : Except Err α) = Except.ok a := rfl

theorem exthrow {α : Type} (e : Err) :
    (throw e : Except Err α) = Except.error e := rfl

theorem raiseForStatus_lt {url : String} {code : Nat} (h : code < 400) :
    raiseForStatus url code = .ok () := by
  unfold raiseForStatus
  rw [if_neg (by omega : ¬(400 ≤ code ∧ code < 600))]

/-- The Confluence status poll with a well-formed response whose token is not
the success literal: one GET, then `BackupIncomplete`. -/
theorem CD_gdu_incomplete (c : Credentials) {site : String}
    {resp : HttpResponse} {s : String} (hcode : resp.statusCode < 400)
    (hlk : resp.json.lookup "currentStatus" = some s) (hs : s ≠ "COMPLETE") :
    ConfluenceDownload.get_download_url c site resp =
      ([Action.httpGet (ConfluenceDownload.progressUrl site)],
        .error .backupIncomplete) := by
  simp only [ConfluenceDownload.get_download_url, raiseForStatus_lt hcode,
    exbind_ok, dictGet, hlk, exthrow]
  rw [if_pos hs]

/-- The Jira status poll with a well-formed response whose token is not the
success literal: one GET, then `BackupIncomplete`. -/
theorem JD_gdu_incomplete (c : Credentials) {site tid : String}
    {resp : HttpResponse} {s : String} (hcode : resp.statusCode < 400)
    (hlk : resp.json.lookup "status" = some s) (hs : s ≠ "Success") :
    JiraDownload.get_download_url c site tid resp =
      ([Action.httpGet (JiraDownload.progressUrl site tid)],
        .error .backupIncomplete) := by
  simp only [JiraDownload.get_download_url, raiseForStatus_lt hcode,
    exbind_ok, dictGet, hlk, exthrow]
  rw [if_pos hs]

/-- The Confluence status poll on a success response. -/
theorem CD_gdu_success (c : Credentials) {site : String}
    {resp : HttpResponse} {u : String} (hcode : resp.statusCode < 400)
    (hlk : resp.json.lookup "currentStatus" = some "COMPLETE")
    (hfn : resp.json.lookup "fileName" = some u) :
    ConfluenceDownload.get_download_url c site resp =
      ([Action.httpGet (ConfluenceDownload.progressUrl site)], .ok u) := by
  simp [ConfluenceDownload.get_download_url, raiseForStatus_lt hcode,
    exbind_ok, dictGet, hlk, hfn]

/-- The Jira status poll on a success response. -/
theorem JD_gdu_success (c : Credentials) {site tid : String}
    {resp : HttpResponse} {u : String} (hcode : resp.statusCode < 400)
    (hlk : resp.json.lookup "status" = some "Success")
    (hfn : resp.json.lookup "result" = some u) :
    JiraDownload.get_download_url c site tid resp =
      ([Action.httpGet (JiraDownload.progressUrl site tid)], .ok u) := by
  simp [JiraDownload.get_download_url, raiseForStatus_lt hcode,
    exbind_ok, dictGet, hlk, hfn]

/-- Inversion: the Confluence poll can only return a download locator when
the observed token was the success literal, and the locator is the literal
`fileName` field of the response. -/
theorem CD_gdu_ok_inv {c : Credentials} {site : String}
    {resp : HttpResponse} {u : String}
    (h : (ConfluenceDownload.get_download_url c site resp).2 = .ok u) :
    resp.json.lookup "currentStatus" = some "COMPLETE" ∧
      resp.json.lookup "fileName" = some u := by
  by_cases h400 : 400 ≤ resp.statusCode ∧ resp.statusCode < 600
  · simp [ConfluenceDownload.get_download_url, raiseForStatus, h400,
      exbind_err] at h
  · rcases hcs : resp.json.lookup "currentStatus" with _ | s
    · simp [ConfluenceDownload.get_download_url, raiseForStatus, h400,
        exbind_ok, exbind_err, dictGet, hcs] at h
    · by_cases hs : s = "COMPLETE"
      · subst hs
        rcases hfn : resp.json.lookup "fileName" with _ | v
        · simp [ConfluenceDownload.get_download_url, raiseForStatus, h400,
            exbind_ok, exbind_err, dictGet, hcs, hfn] at h
        · simp [ConfluenceDownload.get_download_url, raiseForStatus, h400,
            exbind_ok, exbind_err, dictGet, hcs, hfn] at h
          subst h
          exact ⟨rfl, rfl⟩
      · simp [ConfluenceDownload.get_download_url, raiseForStatus, h400,
          exbind_ok, exbind_err, dictGet, hcs, hs, exthrow] at h

/-- Inversion: the Jira poll can only return a download locator when the
observed token was the success literal, and the locator is the literal
`result` field of the response. -/
theorem JD_gdu_ok_inv {c : Credentials} {site tid : String}
    {resp : HttpResponse} {u : String}
    (h : (JiraDownload.get_download_url c site tid resp).2 = .ok u) :
    resp.json.lookup "status" = some "Success" ∧
      resp.json.lookup "result" = some u := by
  by_cases h400 : 400 ≤ resp.statusCode ∧ resp.statusCode < 600
  · simp [JiraDownload.get_download_url, raiseForStatus, h400,
      exbind_err] at h
  · rcases hcs : resp.json.lookup "status" with _ | s
    · simp [JiraDownload.get_download_url, raiseForStatus, h400,
        exbind_ok, exbind_err, dictGet, hcs] at h
    · by_cases hs : s = "Success"
      · subst hs
        rcases hfn : resp.json.lookup "result" with _ | v
        · simp [JiraDownload.get_download_url, raiseForStatus, h400,
            exbind_ok, exbind_err, dictGet, hcs, hfn] at h
        · simp [JiraDownload.get_download_url, raiseForStatus, h400,
            exbind_ok, exbind_err, dictGet, hcs, hfn] at h
          subst h
          exact ⟨rfl, rfl⟩
      · simp [JiraDownload.get_download_url, raiseForStatus, h400,
          exbind_ok, exbind_err, dictGet, hcs, hs, exthrow] at h

/-- The Jira last-task-id lookup on a 2xx response returns the raw response
text as the task id. -/
theorem JD_gti_ok (c : Credentials) {site : String} {resp : HttpResponse}
    (hcode : resp.statusCode < 400) :
    JiraDownload.get_task_id c site resp =
      ([Action.httpGet (JiraDownload.lastTaskIdUrl site)], .ok resp.text) := by
  simp [JiraDownload.get_task_id, raiseForStatus_lt hcode, exbind_ok, expure]

/-- Inversion: a Confluence upload only returns the timestamped name. -/
theorem CD_upload_ok_inv {now : Timestamp} {bucket : String} {uploadOk : Bool}
    {bf : List Nat} {fn : String}
    (h : (ConfluenceDownload.upload_to_s3 now bucket uploadOk bf).2 = .ok fn) :
    fn = "confluence-backup-" ++ strftimeTs now ++ ".zip" := by
  unfold ConfluenceDownload.upload_to_s3 at h
  rcases uploadOk <;> simp at h
  exact h.symm

/-- Inversion: a Jira upload only returns the timestamped name. -/
theorem JD_upload_ok_inv {now : Timestamp} {bucket : String} {uploadOk : Bool}
    {bf : List Nat} {fn : String}
    (h : (JiraDownload.upload_to_s3 now bucket uploadOk bf).2 = .ok fn) :
    fn = "jira-backup-" ++ strftimeTs now ++ ".zip" := by
  unfold JiraDownload.upload_to_s3 at h
  rcases uploadOk <;> simp at h
  exact h.symm

/-- Inversion: when the Confluence handler returns at all, the returned dict
is `{"status": "success"}` with the timestamped filename. -/
theorem CD_handler_ok_inv {ev : List (String × PyValue)}
    {inp : ConfluenceDownload.Inputs} {r : HandlerResult}
    (h : (ConfluenceDownload.lambda_handler ev inp).2 = .ok r) :
    r = ⟨"success", "confluence-backup-" ++ strftimeTs inp.now ++ ".zip"⟩ := by
  simp only [ConfluenceDownload.lambda_handler] at h
  rcases hgc : (ConfluenceDownload.get_credentials inp.store).2 with e | c
  · simp [hgc] at h
  · simp only [hgc] at h
    rcases hgdu : (ConfluenceDownload.get_download_url c inp.siteName
        inp.statusResp).2 with e | u
    · simp [hgdu] at h
    · simp only [hgdu] at h
      rcases hdf : (ConfluenceDownload.download_file c inp.siteName u
          inp.downloadResp).2 with e | bf
      · simp [hdf] at h
      · simp only [hdf] at h
        rcases hup : (ConfluenceDownload.upload_to_s3 inp.now inp.bucketName
            inp.uploadOk bf).2 with e | fn
        · simp [hup] at h
        · simp only [hup] at h
          have h2 : HandlerResult.mk "success" fn = r := by simpa using h
          rw [← h2, CD_upload_ok_inv hup]

/-- Inversion: when the Jira handler returns at all, the returned dict is
`{"status": "success"}` with the timestamped filename. -/
theorem JD_handler_ok_inv {ev : List (String × PyValue)}
    {inp : JiraDownload.Inputs} {r : HandlerResult}
    (h : (JiraDownload.lambda_handler ev inp).2 = .ok r) :
    r = ⟨"success", "jira-backup-" ++ strftimeTs inp.now ++ ".zip"⟩ := by
  simp only [JiraDownload.lambda_handler] at h
  rcases hgc : (JiraDownload.get_credentials inp.store).2 with e | c
  · simp [hgc] at h
  · simp only [hgc] at h
    rcases hgt : (JiraDownload.get_task_id c inp.siteName
        inp.lastTaskIdResp).2 with e | tid
    · simp [hgt] at h
    · simp only [hgt] at h
      rcases hgdu : (JiraDownload.get_download_url c inp.siteName tid
          inp.progressResp).2 with e | u
      · simp [hgdu] at h
      · simp only [hgdu] at h
        rcases hdf : (JiraDownload.download_file c inp.siteName u
            inp.downloadResp).2 with e | bf
        · simp [hdf] at h
        · simp only [hdf] at h
          rcases hup : (JiraDownload.upload_to_s3 inp.now inp.bucketName
              inp.uploadOk bf).2 with e | fn
          · simp [hup] at h
          · simp only [hup] at h
            have h2 : HandlerResult.mk "success" fn = r := by simpa using h
            rw [← h2, JD_upload_ok_inv hup]

/-- The trigger handler trace once credentials resolved: the secret fetch and
then exactly one POST of the composed body. -/
theorem CT_trace {ev : List (String × PyValue)}
    {inp : ConfluenceTrigger.Inputs} {creds : Credentials}
    (hc : (ConfluenceTrigger.get_credentials inp.store).2 = .ok creds) :
    (ConfluenceTrigger.lambda_handler ev inp).1 =
      [Action.getSecret,
       Action.httpPost (ConfluenceTrigger.runBackupUrl inp.siteName)
        (ConfluenceTrigger.triggerBody
          (ConfluenceTrigger.are_attachments_included ev))] := by
  simp only [ConfluenceTrigger.lambda_handler, hc]
  rcases htb : (ConfluenceTrigger.trigger_backup creds
      (ConfluenceTrigger.are_attachments_included ev) inp.siteName
      inp.triggerResp).2 <;>
    simp [ConfluenceTrigger.get_credentials, ConfluenceTrigger.get_secret,
      ConfluenceTrigger.trigger_backup]

/-! The claims. -/

/-- C2: the destination object name is a deterministic function of the clock
reading and the product variant: at UTC clock reading 2025-01-02T03:04:05Z
the Confluence upload names the object
confluence-backup-2025-01-02T03-04-05Z.zip and the Jira upload names it
jira-backup-2025-01-02T03-04-05Z.zip (fixed prefix, second-precision
timestamp, fixed .zip extension), for any bucket, stream and upload
outcome. -/
theorem C2_object_name_deterministic (bucket : String) (uploadOk : Bool)
    (bf : List Nat) :
    (ConfluenceDownload.upload_to_s3 ⟨2025, 1, 2, 3, 4, 5⟩ bucket uploadOk
        bf).1 =
      [Action.s3Upload bucket "confluence-backup-2025-01-02T03-04-05Z.zip"] ∧
    (ConfluenceDownload.upload_to_s3 ⟨2025, 1, 2, 3, 4, 5⟩ bucket true bf).2 =
      .ok "confluence-backup-2025-01-02T03-04-05Z.zip" ∧
    (JiraDownload.upload_to_s3 ⟨2025, 1, 2, 3, 4, 5⟩ bucket uploadOk bf).1 =
      [Action.s3Upload bucket "jira-backup-2025-01-02T03-04-05Z.zip"] ∧
    (JiraDownload.upload_to_s3 ⟨2025, 1, 2, 3, 4, 5⟩ bucket true bf).2 =
      .ok "jira-backup-2025-01-02T03-04-05Z.zip" :=
  ⟨rfl, rfl, rfl, rfl⟩

/-- C3: each poller compares the status field case-sensitively against its
exact terminal-success literal (COMPLETE for the Confluence variant, Success
for the Jira variant); any other string value raises BackupIncomplete on the
first and only check — the trace holds exactly one GET, so there is no wait,
backoff or second poll. -/
theorem C3_single_poll_case_sensitive :
    (∀ (c : Credentials) (site : String) (resp : HttpResponse) (s : String),
      resp.statusCode < 400 →
      resp.json.lookup "currentStatus" = some s →
      s ≠ "COMPLETE" →
      ConfluenceDownload.get_download_url c site resp =
        ([Action.httpGet (ConfluenceDownload.progressUrl site)],
          .error .backupIncomplete)) ∧
    (∀ (c : Credentials) (site tid : String) (resp : HttpResponse)
      (s : String),
      resp.statusCode < 400 →
      resp.json.lookup "status" = some s →
      s ≠ "Success" →
      JiraDownload.get_download_url c site tid resp =
        ([Action.httpGet (JiraDownload.progressUrl site tid)],
          .error .backupIncomplete)) :=
  ⟨fun c site resp s hcode hlk hs => CD_gdu_incomplete c hcode hlk hs,
   fun c site tid resp s hcode hlk hs => JD_gdu_incomplete c hcode hlk hs⟩

/-- C3 witness: a pending Confluence token and a case-variant Jira token
(uppercase SUCCESS) at concrete inputs both fail with BackupIncomplete after
exactly one GET. -/
theorem C3_single_poll_case_sensitive_witness :
    ConfluenceDownload.get_download_url ⟨"u", "t"⟩ "ex.atlassian.net"
        { statusCode := 200, json := [("currentStatus", "RUNNING")],
          text := "", raw := [] } =
      ([Action.httpGet (ConfluenceDownload.progressUrl "ex.atlassian.net")],
        .error .backupIncomplete) ∧
    JiraDownload.get_download_url ⟨"u", "t"⟩ "ex.atlassian.net" "42"
        { statusCode := 200, json := [("status", "SUCCESS")],
          text := "", raw := [] } =
      ([Action.httpGet (JiraDownload.progressUrl "ex.atlassian.net" "42")],
        .error .backupIncomplete) :=
  ⟨C3_single_poll_case_sensitive.1 ⟨"u", "t"⟩ "ex.atlassian.net" _ "RUNNING"
      (by decide) rfl (by decide),
   C3_single_poll_case_sensitive.2 ⟨"u", "t"⟩ "ex.atlassian.net" "42" _
      "SUCCESS" (by decide) rfl (by decide)⟩

/-- C5: Jira end-to-end scenario: the last-task-id endpoint answers the text
42 and the progress endpoint for that id answers status Success with result
export.zip; the workflow downloads from the site path
/plugins/servlet/export.zip, uploads the stream, and returns status success
with filename jira-backup-<timestamp>.zip; the task id placed in the
progress URL is the raw response text, unmodified. -/
theorem C5_jira_end_to_end (site bucket : String) (t : Timestamp)
    (stream : List Nat) :
    JiraDownload.lambda_handler []
      { store := .value [("email", "u@example.com"), ("api_token", "tok")]
        siteName := site
        bucketName := bucket
        lastTaskIdResp := ⟨200, [], "42", []⟩
        progressResp :=
          ⟨200, [("status", "Success"), ("result", "export.zip")], "", []⟩
        downloadResp := ⟨200, [], "", stream⟩
        uploadOk := true
        now := t } =
      ([Action.getSecret,
        Action.httpGet ("https://" ++ site ++
          "/rest/backup/1/export/lastTaskId"),
        Action.httpGet ("https://" ++ site ++
          "/rest/backup/1/export/getProgress?taskId=" ++ "42"),
        Action.httpGet ("https://" ++ site ++ "/plugins/servlet/" ++
          "export.zip"),
        Action.s3Upload bucket ("jira-backup-" ++ strftimeTs t ++ ".zip")],
       .ok ⟨"success", "jira-backup-" ++ strftimeTs t ++ ".zip"⟩) := rfl

/-- C9: the trigger flag is decided by Python truthiness, not boolean
equality: cbAttachments is the string true exactly when the
includeAttachments key is present with a truthy value, and false exactly
otherwise; in particular the non-empty string false and the number 1 give
true, while false, 0, the empty string and null give false. -/
theorem C9_truthiness (ev : List (String × PyValue)) :
    (ConfluenceTrigger.are_attachments_included ev = "true" ↔
      ∃ v, ev.lookup "includeAttachments" = some v ∧ v.truthy = true) ∧
    (ConfluenceTrigger.are_attachments_included ev = "false" ↔
      ¬∃ v, ev.lookup "includeAttachments" = some v ∧ v.truthy = true) ∧
    ConfluenceTrigger.are_attachments_included
      [("includeAttachments", .pyStr "false")] = "true" ∧
    ConfluenceTrigger.are_attachments_included
      [("includeAttachments", .pyInt 1)] = "true" ∧
    ConfluenceTrigger.are_attachments_included
      [("includeAttachments", .pyBool false)] = "false" ∧
    ConfluenceTrigger.are_attachments_included
      [("includeAttachments", .pyInt 0)] = "false" ∧
    ConfluenceTrigger.are_attachments_included
      [("includeAttachments", .pyStr "")] = "false" ∧
    ConfluenceTrigger.are_attachments_included
      [("includeAttachments", .pyNone)] = "false" ∧
    ConfluenceTrigger.are_attachments_included [] = "false" := by
  refine ⟨?_, ?_, rfl, rfl, rfl, rfl, rfl, rfl, rfl⟩
  · unfold ConfluenceTrigger.are_attachments_included
    rcases h : ev.lookup "includeAttachments" with _ | v
    · simp
    · rcases hv : v.truthy <;> simp [hv]
  · unfold ConfluenceTrigger.are_attachments_included
    rcases h : ev.lookup "includeAttachments" with _ | v
    · simp
    · rcases hv : v.truthy <;> simp [hv]

/-- C1: for every status response in either retrieval workflow whose status
token is not the expected terminal-success literal, the workflow fails with
BackupIncomplete and performs no download request and no upload (the trace
ends at the status poll); moreover, in every run of either workflow an
upload action can only appear in the trace when the observed status token
equals the success literal, so a download or upload is never attempted
before status equals success. -/
theorem C1_no_download_or_upload_before_success :
    (∀ (ev : List (String × PyValue)) (inp : ConfluenceDownload.Inputs)
      (s : String) (creds : Credentials),
      (ConfluenceDownload.get_credentials inp.store).2 = .ok creds →
      inp.statusResp.statusCode < 400 →
      inp.statusResp.json.lookup "currentStatus" = some s →
      s ≠ "COMPLETE" →
      ConfluenceDownload.lambda_handler ev inp =
        ([Action.getSecret,
          Action.httpGet (ConfluenceDownload.progressUrl inp.siteName)],
         .error .backupIncomplete)) ∧
    (∀ (ev : List (String × PyValue)) (inp : JiraDownload.Inputs)
      (s : String) (creds : Credentials),
      (JiraDownload.get_credentials inp.store).2 = .ok creds →
      inp.lastTaskIdResp.statusCode < 400 →
      inp.progressResp.statusCode < 400 →
      inp.progressResp.json.lookup "status" = some s →
      s ≠ "Success" →
      JiraDownload.lambda_handler ev inp =
        ([Action.getSecret,
          Action.httpGet (JiraDownload.lastTaskIdUrl inp.siteName),
          Action.httpGet (JiraDownload.progressUrl inp.siteName
            inp.lastTaskIdResp.text)],
         .error .backupIncomplete)) ∧
    (∀ (ev : List (String × PyValue)) (inp : ConfluenceDownload.Inputs)
      (b k : String),
      Action.s3Upload b k ∈ (ConfluenceDownload.lambda_handler ev inp).1 →
      inp.statusResp.json.lookup "currentStatus" = some "COMPLETE") ∧
    (∀ (ev : List (String × PyValue)) (inp : JiraDownload.Inputs)
      (b k : String),
      Action.s3Upload b k ∈ (JiraDownload.lambda_handler ev inp).1 →
      inp.progressResp.json.lookup "status" = some "Success") := by
  refine ⟨?_, ?_, ?_, ?_⟩
  · intro ev inp s creds hc hcode hlk hs
    simp only [ConfluenceDownload.lambda_handler, hc,
      CD_gdu_incomplete creds hcode hlk hs]
    simp [ConfluenceDownload.get_credentials, ConfluenceDownload.get_secret]
  · intro ev inp s creds hc hcode1 hcode2 hlk hs
    simp only [JiraDownload.lambda_handler, hc, JD_gti_ok creds hcode1,
      JD_gdu_incomplete creds hcode2 hlk hs]
    simp [JiraDownload.get_credentials, JiraDownload.get_secret]
  · intro ev inp b k hmem
    simp only [ConfluenceDownload.lambda_handler] at hmem
    rcases hgc : (ConfluenceDownload.get_credentials inp.store).2 with e | c <;>
      simp only [hgc] at hmem
    · simp [ConfluenceDownload.get_credentials,
        ConfluenceDownload.get_secret] at hmem
    · rcases hgdu : (ConfluenceDownload.get_download_url c inp.siteName
          inp.statusResp).2 with e | u
      · simp only [hgdu] at hmem
        simp [ConfluenceDownload.get_credentials,
          ConfluenceDownload.get_secret,
          ConfluenceDownload.get_download_url] at hmem
      · exact (CD_gdu_ok_inv hgdu).1
  · intro ev inp b k hmem
    simp only [JiraDownload.lambda_handler] at hmem
    rcases hgc : (JiraDownload.get_credentials inp.store).2 with e | c <;>
      simp only [hgc] at hmem
    · simp [JiraDownload.get_credentials, JiraDownload.get_secret] at hmem
    · rcases hgt : (JiraDownload.get_task_id c inp.siteName
          inp.lastTaskIdResp).2 with e | tid <;> simp only [hgt] at hmem
      · simp [JiraDownload.get_credentials, JiraDownload.get_secret,
          JiraDownload.get_task_id] at hmem
      · rcases hgdu : (JiraDownload.get_download_url c inp.siteName tid
            inp.progressResp).2 with e | u
        · simp only [hgdu] at hmem
          simp [JiraDownload.get_credentials, JiraDownload.get_secret,
            JiraDownload.get_task_id,
            JiraDownload.get_download_url] at hmem
        · exact (JD_gdu_ok_inv hgdu).1

/-- C1 witness: concrete non-success tokens (RUNNING for Confluence,
InProgress for Jira) make both handlers fail with BackupIncomplete after
the status poll, with no download GET and no upload in the trace. -/
theorem C1_no_download_or_upload_before_success_witness :
    ConfluenceDownload.lambda_handler []
        ⟨.value [("email", "u"), ("api_token", "t")], "ex.atlassian.net", "b",
          ⟨200, [("currentStatus", "RUNNING")], "", []⟩, ⟨200, [], "", []⟩,
          true, ⟨2025, 1, 2, 3, 4, 5⟩⟩ =
      ([Action.getSecret,
        Action.httpGet (ConfluenceDownload.progressUrl "ex.atlassian.net")],
       .error .backupIncomplete) ∧
    JiraDownload.lambda_handler []
        ⟨.value [("email", "u"), ("api_token", "t")], "ex.atlassian.net", "b",
          ⟨200, [], "7", []⟩, ⟨200, [("status", "InProgress")], "", []⟩,
          ⟨200, [], "", []⟩, true, ⟨2025, 1, 2, 3, 4, 5⟩⟩ =
      ([Action.getSecret,
        Action.httpGet (JiraDownload.lastTaskIdUrl "ex.atlassian.net"),
        Action.httpGet (JiraDownload.progressUrl "ex.atlassian.net" "7")],
       .error .backupIncomplete) :=
  ⟨C1_no_download_or_upload_before_success.1 [] _ "RUNNING" ⟨"u", "t"⟩ rfl
      (by decide) rfl (by decide),
   C1_no_download_or_upload_before_success.2.1 [] _ "InProgress" ⟨"u", "t"⟩
      rfl (by decide) (by decide) rfl (by decide)⟩

/-- C4: for every successful status response, the download locator used in
the download request equals character-for-character the literal value of the
status response field (fileName for Confluence, result for Jira), and the
download URL is exactly https:// ++ site ++ fixed path ++ locator with no
other transformation. -/
theorem C4_download_url_is_literal_field :
    (∀ (ev : List (String × PyValue)) (inp : ConfluenceDownload.Inputs)
      (creds : Credentials) (L : String),
      (ConfluenceDownload.get_credentials inp.store).2 = .ok creds →
      inp.statusResp.statusCode < 400 →
      inp.statusResp.json.lookup "currentStatus" = some "COMPLETE" →
      inp.statusResp.json.lookup "fileName" = some L →
      (ConfluenceDownload.lambda_handler ev inp).1.take 3 =
        [Action.getSecret,
         Action.httpGet (ConfluenceDownload.progressUrl inp.siteName),
         Action.httpGet ("https://" ++ inp.siteName ++ "/wiki/download/" ++
           L)]) ∧
    (∀ (ev : List (String × PyValue)) (inp : JiraDownload.Inputs)
      (creds : Credentials) (L : String),
      (JiraDownload.get_credentials inp.store).2 = .ok creds →
      inp.lastTaskIdResp.statusCode < 400 →
      inp.progressResp.statusCode < 400 →
      inp.progressResp.json.lookup "status" = some "Success" →
      inp.progressResp.json.lookup "result" = some L →
      (JiraDownload.lambda_handler ev inp).1.take 4 =
        [Action.getSecret,
         Action.httpGet (JiraDownload.lastTaskIdUrl inp.siteName),
         Action.httpGet (JiraDownload.progressUrl inp.siteName
           inp.lastTaskIdResp.text),
         Action.httpGet ("https://" ++ inp.siteName ++ "/plugins/servlet/" ++
           L)]) := by
  constructor
  · intro ev inp creds L hc hcode hlk hfn
    simp only [ConfluenceDownload.lambda_handler, hc,
      CD_gdu_success creds hcode hlk hfn]
    rcases hdf : (ConfluenceDownload.download_file creds inp.siteName L
        inp.downloadResp).2 with e | bf
    · simp [ConfluenceDownload.get_credentials,
        ConfluenceDownload.get_secret, ConfluenceDownload.download_file]
    · rcases hok : inp.uploadOk <;>
        simp [ConfluenceDownload.get_credentials,
          ConfluenceDownload.get_secret, ConfluenceDownload.download_file,
          ConfluenceDownload.upload_to_s3, hok]
  · intro ev inp creds L hc hcode1 hcode2 hlk hfn
    simp only [JiraDownload.lambda_handler, hc, JD_gti_ok creds hcode1,
      JD_gdu_success creds hcode2 hlk hfn]
    rcases hdf : (JiraDownload.download_file creds inp.siteName L
        inp.downloadResp).2 with e | bf
    · simp [JiraDownload.get_credentials, JiraDownload.get_secret,
        JiraDownload.download_file]
    · rcases hok : inp.uploadOk <;>
        simp [JiraDownload.get_credentials, JiraDownload.get_secret,
          JiraDownload.download_file, JiraDownload.upload_to_s3, hok]

/-- C4 witness: with success responses carrying fileName backup.zip and
result export.zip, the download GETs hit exactly the literal-locator
URLs. -/
theorem C4_download_url_is_literal_field_witness :
    (ConfluenceDownload.lambda_handler []
        ⟨.value [("email", "u"), ("api_token", "t")], "ex.atlassian.net", "b",
          ⟨200, [("currentStatus", "COMPLETE"), ("fileName", "backup.zip")],
            "", []⟩,
          ⟨200, [], "", []⟩, true, ⟨2025, 1, 2, 3, 4, 5⟩⟩).1.take 3 =
      [Action.getSecret,
       Action.httpGet (ConfluenceDownload.progressUrl "ex.atlassian.net"),
       Action.httpGet ("https://" ++ "ex.atlassian.net" ++
         "/wiki/download/" ++ "backup.zip")] ∧
    (JiraDownload.lambda_handler []
        ⟨.value [("email", "u"), ("api_token", "t")], "ex.atlassian.net", "b",
          ⟨200, [], "42", []⟩,
          ⟨200, [("status", "Success"), ("result", "export.zip")], "", []⟩,
          ⟨200, [], "", []⟩, true, ⟨2025, 1, 2, 3, 4, 5⟩⟩).1.take 4 =
      [Action.getSecret,
       Action.httpGet (JiraDownload.lastTaskIdUrl "ex.atlassian.net"),
       Action.httpGet (JiraDownload.progressUrl "ex.atlassian.net" "42"),
       Action.httpGet ("https://" ++ "ex.atlassian.net" ++
         "/plugins/servlet/" ++ "export.zip")] :=
  ⟨C4_download_url_is_literal_field.1 [] _ ⟨"u", "t"⟩ "backup.zip" rfl
      (by decide) rfl rfl,
   C4_download_url_is_literal_field.2 [] _ ⟨"u", "t"⟩ "export.zip" rfl
      (by decide) (by decide) rfl rfl⟩

/-- C6: for every trigger invocation that reaches the POST, the request body
sent to the run-backup path is the JSON object with a cbAttachments field
that is literally the string true or false and an exportToCloud field that
is unconditionally the string true; includeAttachments equal to true yields
cbAttachments "true", an absent or false includeAttachments yields
"false". -/
theorem C6_trigger_body (ev : List (String × PyValue))
    (inp : ConfluenceTrigger.Inputs) (creds : Credentials)
    (hc : (ConfluenceTrigger.get_credentials inp.store).2 = .ok creds) :
    (∃ cb, (ConfluenceTrigger.lambda_handler ev inp).1 =
        [Action.getSecret,
         Action.httpPost (ConfluenceTrigger.runBackupUrl inp.siteName)
          ("\x7b\"cbAttachments\":\"" ++ cb ++
            "\", \"exportToCloud\":\"true\"\x7d")] ∧
      (cb = "true" ∨ cb = "false")) ∧
    (ev.lookup "includeAttachments" = some (.pyBool true) →
      (ConfluenceTrigger.lambda_handler ev inp).1 =
        [Action.getSecret,
         Action.httpPost (ConfluenceTrigger.runBackupUrl inp.siteName)
          "\x7b\"cbAttachments\":\"true\", \"exportToCloud\":\"true\"\x7d"]) ∧
    (ev.lookup "includeAttachments" = none →
      (ConfluenceTrigger.lambda_handler ev inp).1 =
        [Action.getSecret,
         Action.httpPost (ConfluenceTrigger.runBackupUrl inp.siteName)
          "\x7b\"cbAttachments\":\"false\", \"exportToCloud\":\"true\"\x7d"]) ∧
    (ev.lookup "includeAttachments" = some (.pyBool false) →
      (ConfluenceTrigger.lambda_handler ev inp).1 =
        [Action.getSecret,
         Action.httpPost (ConfluenceTrigger.runBackupUrl inp.siteName)
          "\x7b\"cbAttachments\":\"false\", \"exportToCloud\":\"true\"\x7d"]) := by
  refine ⟨?_, ?_, ?_, ?_⟩
  · refine ⟨ConfluenceTrigger.are_attachments_included ev, CT_trace hc, ?_⟩
    unfold ConfluenceTrigger.are_attachments_included
    rcases ev.lookup "includeAttachments" with _ | v
    · exact Or.inr rfl
    · rcases hv : v.truthy
      · exact Or.inr (by simp [hv])
      · exact Or.inl (by simp [hv])
  · intro h
    rw [CT_trace hc]
    simp [ConfluenceTrigger.are_attachments_included, h, PyValue.truthy,
      ConfluenceTrigger.triggerBody]
  · intro h
    rw [CT_trace hc]
    simp [ConfluenceTrigger.are_attachments_included, h,
      ConfluenceTrigger.triggerBody]
  · intro h
    rw [CT_trace hc]
    simp [ConfluenceTrigger.are_attachments_included, h, PyValue.truthy,
      ConfluenceTrigger.triggerBody]

/-- C6 witness: a concrete trigger invocation with includeAttachments true
POSTs the body with cbAttachments "true" and exportToCloud "true". -/
theorem C6_trigger_body_witness :
    (ConfluenceTrigger.lambda_handler [("includeAttachments", .pyBool true)]
        ⟨.value [("email", "u"), ("api_token", "t")], "ex.atlassian.net",
          ⟨200, [], "", []⟩⟩).1 =
      [Action.getSecret,
       Action.httpPost (ConfluenceTrigger.runBackupUrl "ex.atlassian.net")
        "\x7b\"cbAttachments\":\"true\", \"exportToCloud\":\"true\"\x7d"] :=
  (C6_trigger_body [("includeAttachments", .pyBool true)]
      ⟨.value [("email", "u"), ("api_token", "t")], "ex.atlassian.net",
        ⟨200, [], "", []⟩⟩ ⟨"u", "t"⟩ rfl).2.1 rfl

/-- C7: when fetching credentials fails (the secret is unavailable, or the
resolved value lacks the email or api_token field), each of the three
handlers halts before any network request to the site: the run is exactly
the secret fetch followed by the propagated error; and in every run of
every handler the first trace action is the credential acquisition, so it
strictly precedes every site request. -/
theorem C7_credential_failure_halts_before_site :
    (∀ (ev : List (String × PyValue)) (inp : ConfluenceDownload.Inputs)
      (e : Err),
      (ConfluenceDownload.get_credentials inp.store).2 = .error e →
      ConfluenceDownload.lambda_handler ev inp =
        ([Action.getSecret], .error e)) ∧
    (∀ (ev : List (String × PyValue)) (inp : JiraDownload.Inputs) (e : Err),
      (JiraDownload.get_credentials inp.store).2 = .error e →
      JiraDownload.lambda_handler ev inp = ([Action.getSecret], .error e)) ∧
    (∀ (ev : List (String × PyValue)) (inp : ConfluenceTrigger.Inputs)
      (e : Err),
      (ConfluenceTrigger.get_credentials inp.store).2 = .error e →
      ConfluenceTrigger.lambda_handler ev inp =
        ([Action.getSecret], .error e)) ∧
    (∀ (ev : List (String × PyValue)) (inp : ConfluenceDownload.Inputs),
      (ConfluenceDownload.lambda_handler ev inp).1.head? =
        some Action.getSecret) ∧
    (∀ (ev : List (String × PyValue)) (inp : JiraDownload.Inputs),
      (JiraDownload.lambda_handler ev inp).1.head? =
        some Action.getSecret) ∧
    (∀ (ev : List (String × PyValue)) (inp : ConfluenceTrigger.Inputs),
      (ConfluenceTrigger.lambda_handler ev inp).1.head? =
        some Action.getSecret) := by
  refine ⟨?_, ?_, ?_, ?_, ?_, ?_⟩
  · intro ev inp e he
    simp only [ConfluenceDownload.lambda_handler, he]
    simp [ConfluenceDownload.get_credentials, ConfluenceDownload.get_secret]
  · intro ev inp e he
    simp only [JiraDownload.lambda_handler, he]
    simp [JiraDownload.get_credentials, JiraDownload.get_secret]
  · intro ev inp e he
    simp only [ConfluenceTrigger.lambda_handler, he]
    simp [ConfluenceTrigger.get_credentials, ConfluenceTrigger.get_secret]
  · intro ev inp
    simp only [ConfluenceDownload.lambda_handler]
    rcases hgc : (ConfluenceDownload.get_credentials inp.store).2 with e | c
    · simp [hgc, ConfluenceDownload.get_credentials,
        ConfluenceDownload.get_secret]
    · rcases hgdu : (ConfluenceDownload.get_download_url c inp.siteName
          inp.statusResp).2 with e | u
      · simp [hgc, hgdu, ConfluenceDownload.get_credentials,
          ConfluenceDownload.get_secret]
      · rcases hdf : (ConfluenceDownload.download_file c inp.siteName u
            inp.downloadResp).2 with e | bf
        · simp [hgc, hgdu, hdf, ConfluenceDownload.get_credentials,
            ConfluenceDownload.get_secret]
        · rcases hup : (ConfluenceDownload.upload_to_s3 inp.now
              inp.bucketName inp.uploadOk bf).2 with e | fn <;>
            simp [hgc, hgdu, hdf, hup, ConfluenceDownload.get_credentials,
              ConfluenceDownload.get_secret]
  · intro ev inp
    simp only [JiraDownload.lambda_handler]
    rcases hgc : (JiraDownload.get_credentials inp.store).2 with e | c
    · simp [hgc, JiraDownload.get_credentials, JiraDownload.get_secret]
    · rcases hgt : (JiraDownload.get_task_id c inp.siteName
          inp.lastTaskIdResp).2 with e | tid
      · simp [hgc, hgt, JiraDownload.get_credentials,
          JiraDownload.get_secret]
      · rcases hgdu : (JiraDownload.get_download_url c inp.siteName tid
            inp.progressResp).2 with e | u
        · simp [hgc, hgt, hgdu, JiraDownload.get_credentials,
            JiraDownload.get_secret]
        · rcases hdf : (JiraDownload.download_file c inp.siteName u
              inp.downloadResp).2 with e | bf
          · simp [hgc, hgt, hgdu, hdf, JiraDownload.get_credentials,
              JiraDownload.get_secret]
          · rcases hup : (JiraDownload.upload_to_s3 inp.now inp.bucketName
                inp.uploadOk bf).2 with e | fn <;>
              simp [hgc, hgt, hgdu, hdf, hup, JiraDownload.get_credentials,
                JiraDownload.get_secret]
  · intro ev inp
    simp only [ConfluenceTrigger.lambda_handler]
    rcases hgc : (ConfluenceTrigger.get_credentials inp.store).2 with e | c
    · simp [hgc, ConfluenceTrigger.get_credentials,
        ConfluenceTrigger.get_secret]
    · rcases htb : (ConfluenceTrigger.trigger_backup c
          (ConfluenceTrigger.are_attachments_included ev) inp.siteName
          inp.triggerResp).2 with e | u <;>
        simp [hgc, htb, ConfluenceTrigger.get_credentials,
          ConfluenceTrigger.get_secret]

/-- C7 witness: with an unavailable secret the Confluence download handler,
and with a secret missing api_token the Jira download handler and the
trigger handler, all halt after the secret fetch with no site request. -/
theorem C7_credential_failure_halts_before_site_witness :
    ConfluenceDownload.lambda_handler []
        ⟨.unavailable, "ex.atlassian.net", "b", ⟨200, [], "", []⟩,
          ⟨200, [], "", []⟩, true, ⟨2025, 1, 2, 3, 4, 5⟩⟩ =
      ([Action.getSecret], .error .secretUnavailable) ∧
    JiraDownload.lambda_handler []
        ⟨.value [("email", "u")], "ex.atlassian.net", "b", ⟨200, [], "", []⟩,
          ⟨200, [], "", []⟩, ⟨200, [], "", []⟩, true, ⟨2025, 1, 2, 3, 4, 5⟩⟩ =
      ([Action.getSecret], .error (.keyError "api_token")) ∧
    ConfluenceTrigger.lambda_handler []
        ⟨.value [], "ex.atlassian.net", ⟨200, [], "", []⟩⟩ =
      ([Action.getSecret], .error (.keyError "email")) :=
  ⟨C7_credential_failure_halts_before_site.1 [] _ .secretUnavailable rfl,
   C7_credential_failure_halts_before_site.2.1 [] _ (.keyError "api_token")
     rfl,
   C7_credential_failure_halts_before_site.2.2.1 [] _ (.keyError "email")
     rfl⟩

/-- C8: the retrieval workflow is not idempotent: any two clock readings
that differ yield distinct destination object names for both product
variants, and two successful runs of either download handler that differ
only in the clock reading return results with distinct filenames — there is
no overwrite of the prior object and no deduplication short-circuit. -/
theorem C8_no_idempotence (t1 t2 : Timestamp) (h1 : t1.Valid) (h2 : t2.Valid)
    (hne : t1 ≠ t2) :
    ("confluence-backup-" ++ strftimeTs t1 ++ ".zip" ≠
      "confluence-backup-" ++ strftimeTs t2 ++ ".zip") ∧
    ("jira-backup-" ++ strftimeTs t1 ++ ".zip" ≠
      "jira-backup-" ++ strftimeTs t2 ++ ".zip") ∧
    (∀ (ev : List (String × PyValue)) (inp : ConfluenceDownload.Inputs)
      (r1 r2 : HandlerResult),
      (ConfluenceDownload.lambda_handler ev { inp with now := t1 }).2 =
        .ok r1 →
      (ConfluenceDownload.lambda_handler ev { inp with now := t2 }).2 =
        .ok r2 →
      r1.filename ≠ r2.filename) ∧
    (∀ (ev : List (String × PyValue)) (inp : JiraDownload.Inputs)
      (r1 r2 : HandlerResult),
      (JiraDownload.lambda_handler ev { inp with now := t1 }).2 = .ok r1 →
      (JiraDownload.lambda_handler ev { inp with now := t2 }).2 = .ok r2 →
      r1.filename ≠ r2.filename) := by
  have hstr : strftimeTs t1 ≠ strftimeTs t2 := fun hEq =>
    hne (strftimeTs_inj h1 h2 hEq)
  have hcn : "confluence-backup-" ++ strftimeTs t1 ++ ".zip" ≠
      "confluence-backup-" ++ strftimeTs t2 ++ ".zip" := fun hEq =>
    hstr (string_sandwich_inj "confluence-backup-" ".zip" hEq)
  have hjn : "jira-backup-" ++ strftimeTs t1 ++ ".zip" ≠
      "jira-backup-" ++ strftimeTs t2 ++ ".zip" := fun hEq =>
    hstr (string_sandwich_inj "jira-backup-" ".zip" hEq)
  refine ⟨hcn, hjn, ?_, ?_⟩
  · intro ev inp r1 r2 hr1 hr2
    rw [CD_handler_ok_inv hr1, CD_handler_ok_inv hr2]
    simpa using hcn
  · intro ev inp r1 r2 hr1 hr2
    rw [JD_handler_ok_inv hr1, JD_handler_ok_inv hr2]
    simpa using hjn

/-- C8 witness: two valid clock readings one second apart give distinct
Confluence object names, and two successful concrete Confluence runs one
second apart return distinct filenames. -/
theorem C8_no_idempotence_witness :
    ("confluence-backup-" ++ strftimeTs ⟨2025, 1, 2, 3, 4, 5⟩ ++ ".zip" ≠
      "confluence-backup-" ++ strftimeTs ⟨2025, 1, 2, 3, 4, 6⟩ ++ ".zip") ∧
    ("confluence-backup-2025-01-02T03-04-05Z.zip" ≠
      "confluence-backup-2025-01-02T03-04-06Z.zip") :=
  ⟨(C8_no_idempotence ⟨2025, 1, 2, 3, 4, 5⟩ ⟨2025, 1, 2, 3, 4, 6⟩
      (by decide) (by decide) (by decide)).1,
   (C8_no_idempotence ⟨2025, 1, 2, 3, 4, 5⟩ ⟨2025, 1, 2, 3, 4, 6⟩
      (by decide) (by decide) (by decide)).2.2.1 []
      ⟨.value [("email", "u"), ("api_token", "t")], "ex.atlassian.net", "b",
        ⟨200, [("currentStatus", "COMPLETE"), ("fileName", "backup.zip")],
          "", []⟩,
        ⟨200, [], "", []⟩, true, ⟨2025, 1, 2, 3, 4, 5⟩⟩
      ⟨"success", "confluence-backup-2025-01-02T03-04-05Z.zip"⟩
      ⟨"success", "confluence-backup-2025-01-02T03-04-06Z.zip"⟩ rfl rfl⟩

/-- C10: both retrieval handlers ignore the invocation event entirely: any
two event payloads produce identical traces of outbound requests and
identical results against the same inputs. -/
theorem C10_event_ignored (e1 e2 : List (String × PyValue))
    (inpC : ConfluenceDownload.Inputs) (inpJ : JiraDownload.Inputs) :
    ConfluenceDownload.lambda_handler e1 inpC =
        ConfluenceDownload.lambda_handler e2 inpC ∧
      JiraDownload.lambda_handler e1 inpJ =
        JiraDownload.lambda_handler e2 inpJ :=
  ⟨rfl, rfl⟩

end AtlassianCloudBackups
